import Mathlib

/-!
Shallow embedding of the jump-cube endless-runner simulation.

Sources:
  - constants:        src/unnamed/part_000 (constants module)
  - tick function A:  src/unnamed/part_001 (gameLoop, resetGame, jump)
  - tick function B:  src/unnamed/part_002 (gameLoop, handleKeyDown)
  - data model:       src/types.ts

JavaScript numbers are modelled as rationals; the arithmetic the game
performs (addition, multiplication, division by constants, comparisons,
floor) is exact on the inputs considered here.  `Math.random()` draws are
modelled as explicit oracle parameters (`Draws`).
-/

unseal Rat.add Rat.mul Rat.inv Rat.sub Nat.gcd

set_option maxRecDepth 10000

/-! ## Constants (src/unnamed/part_000) -/

def GAME_WIDTH : ℚ := 800

def GAME_HEIGHT : ℚ := 250

def GROUND_Y : ℚ := GAME_HEIGHT - 20

def GRAVITY : ℚ := 1800

def JUMP_FORCE : ℚ := 650

/-- Width/height pair, used both for dino dimensions and obstacle configs. -/
structure Dimensions where
  width : ℚ
  height : ℚ
  deriving DecidableEq, Repr

def DINO_RUNNING_DIMENSIONS : Dimensions := ⟨44, 47⟩

def DINO_DUCKING_DIMENSIONS : Dimensions := ⟨59, 30⟩

def INITIAL_SPEED : ℚ := 300

def SPEED_INCREASE_RATE : ℚ := 8

def OBSTACLE_INTERVAL_MIN : ℚ := 700

def OBSTACLE_INTERVAL_MAX : ℚ := 1800

/-- `OBSTACLE_CONFIGS`, as an association list in insertion order
(`Object.keys` enumerates string keys in insertion order). -/
def OBSTACLE_CONFIGS : List (String × Dimensions) :=
  [("CACTUS_SMALL", ⟨25, 50⟩), ("CACTUS_LARGE", ⟨50, 50⟩)]

/-! ## Data model (src/types.ts) -/

inductive DinosaurStatus where
  | running
  | jumping
  | ducking
  deriving DecidableEq, Repr

inductive GameState where
  | waiting
  | running
  | gameOver
  deriving DecidableEq, Repr

structure DinosaurState where
  y : ℚ
  vy : ℚ
  status : DinosaurStatus
  deriving DecidableEq, Repr

structure Obstacle where
  x : ℚ
  width : ℚ
  height : ℚ
  type : String
  deriving DecidableEq, Repr

/-- `getDinoDimensions` (part_001 line 69, part_002 line 39). -/
def getDinoDimensions (status : DinosaurStatus) : Dimensions :=
  if status = DinosaurStatus.ducking then DINO_DUCKING_DIMENSIONS else DINO_RUNNING_DIMENSIONS

/-- Ground clamp target for a given status: `GROUND_Y - dimensions.height`
(`groundPosition` in both components). -/
def groundPosition (status : DinosaurStatus) : ℚ :=
  GROUND_Y - (getDinoDimensions status).height

/-! ## Kinematics sub-step (part_001 lines 94-102, part_002 lines 64-74) -/

/-- One semi-implicit Euler integration step with ground clamp:
`newVy = vy + GRAVITY*dt`, `newY = y + newVy*dt`, then clamp to the ground
(`if newY >= g then (g, 0)`).  Returns `(newY, newVy)`. -/
def kinematicsStep (y vy dt g : ℚ) : ℚ × ℚ :=
  let newVy := vy + GRAVITY * dt
  let newY := y + newVy * dt
  if newY ≥ g then (g, 0) else (newY, newVy)

/-! ## World scroll (part_001 lines 104-106, part_002 lines 78-82) -/

/-- `obstacle => ({ ...obstacle, x: obstacle.x - speed * deltaTime })`. -/
def moveObstacle (speed dt : ℚ) (o : Obstacle) : Obstacle :=
  { o with x := o.x - speed * dt }

/-- Scroll every obstacle left by `speed*dt` and drop those with
`x <= -width` (the filter keeps `x > -width`). -/
def scrollObstacles (speed dt : ℚ) (obs : List Obstacle) : List Obstacle :=
  (obs.map (moveObstacle speed dt)).filter (fun o => decide (o.x > -o.width))

/-! ## Spawn sub-step (part_001 lines 108-119, part_002 lines 85-96) -/

/-- The per-tick random draws: `Math.floor(Math.random() * obstacleTypes.length)`
and `random(OBSTACLE_INTERVAL_MIN, OBSTACLE_INTERVAL_MAX)`. -/
structure Draws where
  typeIndex : ℕ
  interval : ℚ
  deriving DecidableEq, Repr

/-- `Object.keys(OBSTACLE_CONFIGS)`. -/
def obstacleTypes : List String := OBSTACLE_CONFIGS.map Prod.fst

/-- The obstacle pushed on spawn: `{ ...config, x: GAME_WIDTH, type }`. -/
def spawnObstacle (typeIndex : ℕ) : Obstacle :=
  let ty := obstacleTypes.getD typeIndex ""
  let cfg := (OBSTACLE_CONFIGS.lookup ty).getD ⟨0, 0⟩
  { x := GAME_WIDTH, width := cfg.width, height := cfg.height, type := ty }

/-- Countdown decrement and (single) spawn: the countdown drops by `dt*1000`;
if it is now `<= 0`, exactly one obstacle is appended at `x = GAME_WIDTH` and
the countdown resets to `interval / (speed / INITIAL_SPEED)`.
Returns the new obstacle list and the new countdown. -/
def spawnStep (countdown dt speed : ℚ) (r : Draws) (obs : List Obstacle) :
    List Obstacle × ℚ :=
  let ct := countdown - dt * 1000
  if ct ≤ 0 then
    (obs ++ [spawnObstacle r.typeIndex], r.interval / (speed / INITIAL_SPEED))
  else
    (obs, ct)

/-! ## Collision (part_001 lines 121-144, part_002 lines 102-127) -/

structure Box where
  x : ℚ
  y : ℚ
  width : ℚ
  height : ℚ
  deriving DecidableEq, Repr

/-- The AABB overlap test used by both components (all comparisons strict). -/
def boxesCollide (a b : Box) : Bool :=
  decide (a.x < b.x + b.width) && decide (a.x + a.width > b.x) &&
  decide (a.y < b.y + b.height) && decide (a.y + a.height > b.y)

/-- Obstacle hitbox: `{ x, y: GROUND_Y - height, width, height }`. -/
def obstacleHitbox (o : Obstacle) : Box :=
  ⟨o.x, GROUND_Y - o.height, o.width, o.height⟩

/-- Dino hitbox: fixed `x = 50`, given vertical position and dimensions. -/
def dinoHitbox (y : ℚ) (dims : Dimensions) : Box :=
  ⟨50, y, dims.width, dims.height⟩

/-! ## Whole-tick step functions -/

/-- The per-tick simulation state.  `nextObstacleTime` is the spawn countdown
held in `nextObstacleTimeRef`. -/
structure SimState where
  dino : DinosaurState
  obstacles : List Obstacle
  score : ℚ
  speed : ℚ
  nextObstacleTime : ℚ
  gameState : GameState
  deriving DecidableEq, Repr

/-- Collision decision of part_001's `gameLoop` (lines 121-144): the dino
hitbox uses the freshly integrated `newDinoY`, and the loop ranges over
`newObstacles` (scrolled, filtered, and possibly with this tick's spawn). -/
def collides001 (s : SimState) (dt : ℚ) (r : Draws) : Bool :=
  let dims := getDinoDimensions s.dino.status
  let k := kinematicsStep s.dino.y s.dino.vy dt (GROUND_Y - dims.height)
  let sp := spawnStep s.nextObstacleTime dt s.speed r (scrollObstacles s.speed dt s.obstacles)
  sp.1.any (fun o => boxesCollide (dinoHitbox k.1 dims) (obstacleHitbox o))

/-- One tick of part_001's `gameLoop` (lines 94-151).  On collision it
returns early: only `gameState` and the already-mutated countdown ref change.
Otherwise dino, obstacles, score and speed are all updated. -/
def step001 (s : SimState) (dt : ℚ) (r : Draws) : SimState :=
  let dims := getDinoDimensions s.dino.status
  let k := kinematicsStep s.dino.y s.dino.vy dt (GROUND_Y - dims.height)
  let sp := spawnStep s.nextObstacleTime dt s.speed r (scrollObstacles s.speed dt s.obstacles)
  if collides001 s dt r then
    { s with gameState := GameState.gameOver, nextObstacleTime := sp.2 }
  else
    { s with
      dino := { s.dino with y := k.1, vy := k.2 },
      obstacles := sp.1,
      score := s.score + s.speed * dt / 10,
      speed := s.speed + SPEED_INCREASE_RATE * dt,
      nextObstacleTime := sp.2 }

/-- Collision decision of part_002's `gameLoop` (lines 102-127): the dino
hitbox uses the closure's pre-tick `dino.y`, and the loop ranges over the
closure's pre-tick `obstacles` (before scroll, filter and spawn). -/
def collides002 (s : SimState) : Bool :=
  let dims := getDinoDimensions s.dino.status
  s.obstacles.any (fun o => boxesCollide (dinoHitbox s.dino.y dims) (obstacleHitbox o))

/-- One tick of part_002's `gameLoop` (lines 53-129).  All state updates are
queued via `setState` before the collision check, so they are applied even on
the game-over tick; the early `return` only skips re-scheduling the frame. -/
def step002 (s : SimState) (dt : ℚ) (r : Draws) : SimState :=
  let dims := getDinoDimensions s.dino.status
  let k := kinematicsStep s.dino.y s.dino.vy dt (GROUND_Y - dims.height)
  let sp := spawnStep s.nextObstacleTime dt s.speed r (scrollObstacles s.speed dt s.obstacles)
  { s with
    dino := { s.dino with y := k.1, vy := k.2 },
    obstacles := sp.1,
    score := s.score + s.speed * dt / 10,
    speed := s.speed + SPEED_INCREASE_RATE * dt,
    nextObstacleTime := sp.2,
    gameState := if collides002 s then GameState.gameOver else s.gameState }

/-- `resetGame` (part_001 lines 73-82): the countdown is set to a fresh
uniform draw, passed here as `draw`. -/
def resetState (draw : ℚ) : SimState :=
  { dino := { y := GROUND_Y - DINO_RUNNING_DIMENSIONS.height, vy := 0,
              status := DinosaurStatus.running },
    obstacles := [],
    score := 0,
    speed := INITIAL_SPEED,
    nextObstacleTime := draw,
    gameState := GameState.running }

/-- `jump` (part_001 lines 187-197): impulse `vy = -JUMP_FORCE` exactly when
`y >= GROUND_Y - dimensions.height` for the current status. -/
def jumpUpdate (d : DinosaurState) : DinosaurState :=
  if d.y ≥ GROUND_Y - (getDinoDimensions d.status).height then
    { d with vy := -JUMP_FORCE }
  else
    d

/-- Fold a list of `(dt, draws)` ticks through part_001's step function. -/
def runSteps (ticks : List (ℚ × Draws)) (s : SimState) : SimState :=
  ticks.foldl (fun acc t => step001 acc t.1 t.2) s

/-- The game-over effect on the high score (part_001 lines 163-170):
`finalScore = Math.floor(score)`; when it beats the stored high score it both
replaces it and is written to the store, otherwise nothing changes.
`store` is the value under the fixed key `dinoHighScore`. -/
def onGameOver (score : ℚ) (highScore : ℤ) (store : Option String) :
    ℤ × Option String :=
  let finalScore := ⌊score⌋
  if finalScore > highScore then
    (finalScore, some (toString finalScore))
  else
    (highScore, store)

/-- Trajectory after a grounded jump: repeated kinematics at `dt = 1/60` from
`(groundPosition running, -JUMP_FORCE)` with the running ground clamp. -/
def jumpTraj (k : ℕ) : ℚ × ℚ :=
  (fun p : ℚ × ℚ => kinematicsStep p.1 p.2 (1/60) (groundPosition DinosaurStatus.running))^[k]
    (groundPosition DinosaurStatus.running, -JUMP_FORCE)

/-- Trajectory of the C8 scenario: repeated kinematics at `dt = 1/60` from
`(203, 0)` with the running ground clamp. -/
def descentTraj (k : ℕ) : ℚ × ℚ :=
  (fun p : ℚ × ℚ => kinematicsStep p.1 p.2 (1/60) (groundPosition DinosaurStatus.running))^[k]
    (203, 0)

/-! ## Helper lemmas -/

/-- The ground clamp: the integrated position never ends up past the ground. -/
lemma kinematicsStep_fst_le (y vy dt g : ℚ) : (kinematicsStep y vy dt g).1 ≤ g := by
  unfold kinematicsStep
  dsimp only
  split
  · exact le_rfl
  · next h => exact le_of_lt (lt_of_not_ge h)

/-- Clamped branch of the kinematics step. -/
lemma kinematicsStep_of_ge (y vy dt g : ℚ) (h : y + (vy + GRAVITY * dt) * dt ≥ g) :
    kinematicsStep y vy dt g = (g, 0) := by
  unfold kinematicsStep
  dsimp only
  rw [if_pos h]

/-- Unclamped branch of the kinematics step. -/
lemma kinematicsStep_of_lt (y vy dt g : ℚ) (h : y + (vy + GRAVITY * dt) * dt < g) :
    kinematicsStep y vy dt g = (y + (vy + GRAVITY * dt) * dt, vy + GRAVITY * dt) := by
  unfold kinematicsStep
  dsimp only
  rw [if_neg (not_le.mpr h)]

/-- Whenever the step ends exactly on the ground, the velocity is zero. -/
lemma kinematicsStep_snd_of_grounded (y vy dt g : ℚ)
    (h : (kinematicsStep y vy dt g).1 = g) : (kinematicsStep y vy dt g).2 = 0 := by
  by_cases hc : y + (vy + GRAVITY * dt) * dt ≥ g
  · rw [kinematicsStep_of_ge y vy dt g hc]
  · rw [kinematicsStep_of_lt y vy dt g (lt_of_not_ge hc)] at h ⊢
    exact absurd h (ne_of_lt (lt_of_not_ge hc))

/-- The AABB test, read back as a proposition. -/
lemma boxesCollide_iff (a b : Box) :
    boxesCollide a b = true ↔
      (a.x < b.x + b.width ∧ a.x + a.width > b.x ∧
       a.y < b.y + b.height ∧ a.y + a.height > b.y) := by
  simp [boxesCollide, and_assoc]

/-- Unfolding of one tick through the fold of ticks. -/
lemma runSteps_cons (t : ℚ × Draws) (ts : List (ℚ × Draws)) (s : SimState) :
    runSteps (t :: ts) s = runSteps ts (step001 s t.1 t.2) := rfl

/-- One part_001 tick never decreases score or speed (given a non-negative
time step and speed), and keeps the speed non-negative. -/
lemma step001_mono (s : SimState) (dt : ℚ) (r : Draws)
    (hdt : 0 ≤ dt) (hsp : 0 ≤ s.speed) :
    s.score ≤ (step001 s dt r).score ∧ s.speed ≤ (step001 s dt r).speed ∧
      0 ≤ (step001 s dt r).speed := by
  unfold step001
  dsimp only
  split
  · exact ⟨le_rfl, le_rfl, hsp⟩
  · refine ⟨?_, ?_, ?_⟩
    · have : 0 ≤ s.speed * dt / 10 := by positivity
      simp only
      linarith
    · have : 0 ≤ SPEED_INCREASE_RATE * dt := by
        have : (0:ℚ) ≤ SPEED_INCREASE_RATE := by norm_num [SPEED_INCREASE_RATE]
        positivity
      simp only
      linarith
    · have : 0 ≤ SPEED_INCREASE_RATE * dt := by
        have : (0:ℚ) ≤ SPEED_INCREASE_RATE := by norm_num [SPEED_INCREASE_RATE]
        positivity
      simp only
      linarith

/-- Score and speed are monotone along any fold of non-negative ticks, and the
speed stays non-negative. -/
lemma runSteps_mono (ticks : List (ℚ × Draws)) (s : SimState)
    (h : ∀ t ∈ ticks, 0 ≤ t.1) (hsp : 0 ≤ s.speed) :
    s.score ≤ (runSteps ticks s).score ∧ s.speed ≤ (runSteps ticks s).speed ∧
      0 ≤ (runSteps ticks s).speed := by
  induction ticks generalizing s with
  | nil => exact ⟨le_rfl, le_rfl, hsp⟩
  | cons t ts ih =>
    have h1 := step001_mono s t.1 t.2 (h t (List.mem_cons_self t ts)) hsp
    have h2 := ih (step001 s t.1 t.2) (fun u hu => h u (List.mem_cons_of_mem t hu)) h1.2.2
    rw [runSteps_cons]
    exact ⟨h1.1.trans h2.1, h1.2.1.trans h2.2.1, h2.2.2⟩

/-! ## Claim theorems -/

/-- C1: for every player state `(y, vy)`, every status, and every `dt >= 0`,
one kinematics sub-step computes `vy' = vy + GRAVITY*dt` and `y' = y + vy'*dt`
(semi-implicit Euler), and whenever `y' >= groundY(status)` it clamps
`y' = groundY(status)` and `vy' = 0`, so that after integration
`y' <= groundY(status)` always holds. -/
theorem claim1_kinematics_ground_clamp (y vy dt : ℚ) (st : DinosaurStatus)
    (hdt : 0 ≤ dt) :
    (y + (vy + GRAVITY * dt) * dt ≥ groundPosition st →
      kinematicsStep y vy dt (groundPosition st) = (groundPosition st, 0)) ∧
    (y + (vy + GRAVITY * dt) * dt < groundPosition st →
      kinematicsStep y vy dt (groundPosition st) =
        (y + (vy + GRAVITY * dt) * dt, vy + GRAVITY * dt)) ∧
    (kinematicsStep y vy dt (groundPosition st)).1 ≤ groundPosition st :=
  ⟨kinematicsStep_of_ge y vy dt (groundPosition st),
   kinematicsStep_of_lt y vy dt (groundPosition st),
   kinematicsStep_fst_le y vy dt (groundPosition st)⟩

/-- Witness for C1 at `y = 203`, `vy = 0`, `dt = 1`, running status. -/
theorem claim1_witness :
    (0:ℚ) ≤ 1 ∧
      (kinematicsStep 203 0 1 (groundPosition DinosaurStatus.running)).1 ≤
        groundPosition DinosaurStatus.running :=
  ⟨by norm_num,
   (claim1_kinematics_ground_clamp 203 0 1 DinosaurStatus.running (by norm_num)).2.2⟩

/-- C2: the collision predicate between two axis-aligned boxes is exactly
`a.x < b.x+b.w && a.x+a.w > b.x && a.y < b.y+b.h && a.y+a.h > b.y`; it is
symmetric, exact touching (`a.x+a.w == b.x`) is not a collision; the
dino/obstacle boxes of the scenario collide at `x = 60` and not at `x = 95`. -/
theorem claim2_collision_predicate :
    (∀ a b : Box, boxesCollide a b = true ↔
      (a.x < b.x + b.width ∧ a.x + a.width > b.x ∧
       a.y < b.y + b.height ∧ a.y + a.height > b.y)) ∧
    (∀ a b : Box, boxesCollide a b = boxesCollide b a) ∧
    (∀ a b : Box, a.x + a.width = b.x → boxesCollide a b = false) ∧
    boxesCollide ⟨50, 180, 44, 47⟩ ⟨60, 180, 25, 50⟩ = true ∧
    boxesCollide ⟨50, 180, 44, 47⟩ ⟨95, 180, 25, 50⟩ = false := by
  refine ⟨boxesCollide_iff, ?_, ?_, by decide, by decide⟩
  · intro a b
    rw [Bool.eq_iff_iff, boxesCollide_iff, boxesCollide_iff]
    constructor
    · rintro ⟨h1, h2, h3, h4⟩
      exact ⟨h2, h1, h4, h3⟩
    · rintro ⟨h1, h2, h3, h4⟩
      exact ⟨h2, h1, h4, h3⟩
  · intro a b h
    rw [← Bool.not_eq_true, boxesCollide_iff]
    rintro ⟨-, h2, -, -⟩
    rw [h] at h2
    exact lt_irrefl b.x h2

/-- Witness for C2: boxes touching exactly edge-to-edge do not collide. -/
theorem claim2_witness : boxesCollide ⟨0, 0, 5, 5⟩ ⟨5, 0, 5, 5⟩ = false :=
  claim2_collision_predicate.2.2.1 ⟨0, 0, 5, 5⟩ ⟨5, 0, 5, 5⟩ (by norm_num)

/-- C3 counterexample: an obstacle whose scrolled position lands exactly at
`x = -width` (so `x + width = 0`, not `< 0`) is nonetheless removed by the
filter, refuting "removed exactly once `x + width < 0`". -/
theorem claim3_removal_boundary_cex :
    scrollObstacles 300 (1/60) [⟨-20, 25, 50, "CACTUS_SMALL"⟩] = [] ∧
    ¬ ((-20 : ℚ) - 300 * (1/60) + 25 < 0) :=
  ⟨by decide, by decide⟩

/-- C3 (amended): each scrolled obstacle's `x` decreases by exactly
`speed*dt`, the surviving sequence is a sublist of the scrolled sequence
(stable filter, spawn order kept), and an obstacle is removed exactly once
`x + width <= 0`, so no obstacle with `x <= -width` persists across a tick. -/
theorem claim3_scroll_spec (speed dt : ℚ) (obs : List Obstacle) :
    (∀ p : Obstacle, (moveObstacle speed dt p).x = p.x - speed * dt ∧
       (moveObstacle speed dt p).width = p.width) ∧
    (scrollObstacles speed dt obs).Sublist (obs.map (moveObstacle speed dt)) ∧
    (∀ o ∈ scrollObstacles speed dt obs,
       o.x + o.width > 0 ∧ ∃ p ∈ obs, o = moveObstacle speed dt p) ∧
    (∀ p ∈ obs, (moveObstacle speed dt p ∈ scrollObstacles speed dt obs ↔
       p.x - speed * dt + p.width > 0)) := by
  refine ⟨fun p => ⟨rfl, rfl⟩, List.filter_sublist _, ?_, ?_⟩
  · intro o ho
    rw [scrollObstacles, List.mem_filter] at ho
    obtain ⟨hmem, hkeep⟩ := ho
    rw [List.mem_map] at hmem
    obtain ⟨p, hp, rfl⟩ := hmem
    refine ⟨?_, p, hp, rfl⟩
    have : (moveObstacle speed dt p).x > -(moveObstacle speed dt p).width := by
      simpa using hkeep
    linarith
  · intro p hp
    rw [scrollObstacles, List.mem_filter]
    constructor
    · rintro ⟨-, hkeep⟩
      have : (moveObstacle speed dt p).x > -(moveObstacle speed dt p).width := by
        simpa using hkeep
      have hx : (moveObstacle speed dt p).x = p.x - speed * dt := rfl
      have hw : (moveObstacle speed dt p).width = p.width := rfl
      rw [hx, hw] at this
      linarith
    · intro hpos
      refine ⟨List.mem_map_of_mem _ hp, ?_⟩
      simp only [moveObstacle, decide_eq_true_eq]
      linarith

/-- Witness for C3: the boundary obstacle from the counterexample is indeed
not kept, via the amended removal condition. -/
theorem claim3_witness :
    moveObstacle 300 (1/60) ⟨-20, 25, 50, "CACTUS_SMALL"⟩ ∉
      scrollObstacles 300 (1/60) [⟨-20, 25, 50, "CACTUS_SMALL"⟩] := by
  intro hmem
  have h := ((claim3_scroll_spec 300 (1/60) [⟨-20, 25, 50, "CACTUS_SMALL"⟩]).2.2.2
    ⟨-20, 25, 50, "CACTUS_SMALL"⟩ (List.mem_singleton.mpr rfl)).mp hmem
  norm_num at h

/-- C4: during a running episode every (non-game-over) tick updates
`score := score + speed*dt/10` and `speed := speed + SPEED_INCREASE_RATE*dt`;
for every sequence of ticks with `dt >= 0` both score and speed are
monotonically non-decreasing from a reset, and every reset sets them back to
`(0, INITIAL_SPEED)`. -/
theorem claim4_score_speed_progression :
    (∀ (s : SimState) (dt : ℚ) (r : Draws), collides001 s dt r = false →
       (step001 s dt r).score = s.score + s.speed * dt / 10 ∧
       (step001 s dt r).speed = s.speed + SPEED_INCREASE_RATE * dt) ∧
    (∀ draw : ℚ, (resetState draw).score = 0 ∧ (resetState draw).speed = INITIAL_SPEED) ∧
    (∀ (ticks rest : List (ℚ × Draws)) (draw : ℚ),
       (∀ t ∈ ticks ++ rest, 0 ≤ t.1) →
       (runSteps ticks (resetState draw)).score ≤
         (runSteps (ticks ++ rest) (resetState draw)).score ∧
       (runSteps ticks (resetState draw)).speed ≤
         (runSteps (ticks ++ rest) (resetState draw)).speed) := by
  refine ⟨?_, fun draw => ⟨rfl, rfl⟩, ?_⟩
  · intro s dt r h
    unfold step001
    dsimp only
    rw [if_neg (by simp [h])]
    exact ⟨rfl, rfl⟩
  · intro ticks rest draw h
    have hsplit : runSteps (ticks ++ rest) (resetState draw) =
        runSteps rest (runSteps ticks (resetState draw)) := by
      simp [runSteps, List.foldl_append]
    have h0 : (0:ℚ) ≤ (resetState draw).speed := by norm_num [resetState, INITIAL_SPEED]
    have h1 := runSteps_mono ticks (resetState draw)
      (fun t ht => h t (List.mem_append_left rest ht)) h0
    have h2 := runSteps_mono rest (runSteps ticks (resetState draw))
      (fun t ht => h t (List.mem_append_right ticks ht)) h1.2.2
    rw [hsplit]
    exact ⟨h2.1, h2.2.1⟩

/-- Witness for C4 with one tick of `dt = 1` from a reset. -/
theorem claim4_witness :
    (runSteps [] (resetState 1000)).score ≤
      (runSteps ([] ++ [((1 : ℚ), (⟨0, 900⟩ : Draws))]) (resetState 1000)).score :=
  (claim4_score_speed_progression.2.2 [] [((1 : ℚ), (⟨0, 900⟩ : Draws))] 1000
    (by decide)).1

/-- C5: the spawn countdown decreases by `dt*1000` each tick; when it reaches
`<= 0` exactly one obstacle is appended at `x = GAME_WIDTH` with the randomly
drawn catalog type, the countdown resets to the uniform draw divided by
`speed / INITIAL_SPEED`, and at most one obstacle spawns per tick. -/
theorem claim5_spawn_spec (countdown dt speed : ℚ) (r : Draws)
    (obs : List Obstacle) :
    (countdown - dt * 1000 > 0 →
       spawnStep countdown dt speed r obs = (obs, countdown - dt * 1000)) ∧
    (countdown - dt * 1000 ≤ 0 →
       spawnStep countdown dt speed r obs =
         (obs ++ [spawnObstacle r.typeIndex],
          r.interval / (speed / INITIAL_SPEED))) ∧
    (spawnObstacle r.typeIndex).x = GAME_WIDTH ∧
    (r.typeIndex < obstacleTypes.length →
       (spawnObstacle r.typeIndex).type = obstacleTypes.getD r.typeIndex "" ∧
       (spawnObstacle r.typeIndex).type ∈ obstacleTypes) ∧
    (spawnStep countdown dt speed r obs).1.length ≤ obs.length + 1 := by
  refine ⟨?_, ?_, rfl, ?_, ?_⟩
  · intro h
    unfold spawnStep
    dsimp only
    rw [if_neg (not_le.mpr h)]
  · intro h
    unfold spawnStep
    dsimp only
    rw [if_pos h]
  · intro h
    have hlen : obstacleTypes.length = 2 := rfl
    rw [hlen] at h
    interval_cases hidx : r.typeIndex
    · exact ⟨rfl, by decide⟩
    · exact ⟨rfl, by decide⟩
  · unfold spawnStep
    dsimp only
    split
    · simp
    · simp

/-- Witness for C5: a tick whose countdown crosses zero spawns exactly the
one drawn obstacle and resets the countdown. -/
theorem claim5_witness :
    spawnStep 500 1 300 ⟨0, 700⟩ [] =
      ([] ++ [spawnObstacle 0], (700 : ℚ) / (300 / INITIAL_SPEED)) :=
  (claim5_spawn_spec 500 1 300 ⟨0, 700⟩ []).2.1 (by norm_num)

/-- C6: a jump input changes the player state only when the player is at
ground level for its current status, setting `vy = -JUMP_FORCE = -650` as a
single impulse; airborne jump inputs leave the state unchanged; and after a
grounded jump the player returns to the ground with `vy = 0` exactly at
landing, never overshooting. -/
theorem claim6_jump_spec :
    (∀ d : DinosaurState, d.y = groundPosition d.status →
       jumpUpdate d = { d with vy := -JUMP_FORCE }) ∧
    (∀ d : DinosaurState, d.y < groundPosition d.status → jumpUpdate d = d) ∧
    (-JUMP_FORCE : ℚ) = -650 ∧
    (∀ y vy dt g : ℚ, (kinematicsStep y vy dt g).1 = g →
       (kinematicsStep y vy dt g).2 = 0) ∧
    (∀ k : ℕ, (jumpTraj k).1 ≤ groundPosition DinosaurStatus.running) ∧
    jumpTraj 43 = (groundPosition DinosaurStatus.running, 0) := by
  refine ⟨?_, ?_, by norm_num [JUMP_FORCE], kinematicsStep_snd_of_grounded, ?_, by decide⟩
  · intro d h
    unfold groundPosition at h
    unfold jumpUpdate
    rw [if_pos (le_of_eq h.symm)]
  · intro d h
    unfold groundPosition at h
    unfold jumpUpdate
    rw [if_neg (not_le.mpr h)]
  · intro k
    induction k with
    | zero => exact le_rfl
    | succ n _ =>
      rw [jumpTraj, Function.iterate_succ_apply']
      exact kinematicsStep_fst_le _ _ _ _

/-- Witness for C6: a grounded running dino receives the `-650` impulse. -/
theorem claim6_witness :
    jumpUpdate ⟨183, 0, DinosaurStatus.running⟩ = ⟨183, -650, DinosaurStatus.running⟩ := by
  have h := claim6_jump_spec.1 ⟨183, 0, DinosaurStatus.running⟩ (by decide)
  rw [h]
  decide

/-- C7: on entering gameOver the high score becomes
`max(previous, floor(score))`, and the store entry under the fixed key is
written exactly when `floor(score) > previous`; otherwise both the high score
and the store entry are unchanged. -/
theorem claim7_highscore_spec (score : ℚ) (hs : ℤ) (store : Option String) :
    (onGameOver score hs store).1 = max hs ⌊score⌋ ∧
    (⌊score⌋ > hs → (onGameOver score hs store).2 = some (toString ⌊score⌋)) ∧
    (¬ ⌊score⌋ > hs → onGameOver score hs store = (hs, store)) := by
  unfold onGameOver
  dsimp only
  by_cases h : ⌊score⌋ > hs
  · rw [if_pos h]
    exact ⟨(max_eq_right (le_of_lt h)).symm, fun _ => rfl, fun hc => absurd h hc⟩
  · rw [if_neg h]
    refine ⟨?_, fun hc => absurd hc h, fun _ => rfl⟩
    rw [max_eq_left (le_of_not_lt h)]

/-- Witness for C7: a new record (floor 7 beats 5) is written to the store. -/
theorem claim7_witness :
    (onGameOver (79/10) 5 none).2 = some (toString ⌊(79/10 : ℚ)⌋) :=
  (claim7_highscore_spec (79/10) 5 none).2.1 (by norm_num)

/-- C8: starting from `y = 203`, `vy = 0` with the running ground clamp
`groundY = 183` (`GROUND_Y = 230`, height `47`), ten ticks of `dt = 1/60`
produce a monotonically descending sequence that clamps at `183` and, after
integration, never exceeds it. -/
theorem claim8_descent_scenario :
    groundPosition DinosaurStatus.running = 183 ∧
    descentTraj 0 = (203, 0) ∧
    (∀ k < 10, (descentTraj (k+1)).1 ≤ (descentTraj k).1) ∧
    (∀ k < 10, (descentTraj (k+1)).1 ≤ 183) ∧
    descentTraj 10 = (183, 0) :=
  ⟨by decide, by decide, by decide, by decide, by decide⟩

/-- Witness for C8: the first tick already steps down to the clamp. -/
theorem claim8_witness : (descentTraj 1).1 ≤ (descentTraj 0).1 :=
  claim8_descent_scenario.2.2.1 0 (by norm_num)

/-- A concrete running state used to separate the two components: the dino is
grounded at `x ∈ [50, 94]` and one small cactus sits at `x = 95`, so the
pre-tick boxes do not overlap but the scrolled (post-tick) boxes do. -/
def cexState : SimState :=
  { dino := ⟨183, 0, DinosaurStatus.running⟩,
    obstacles := [⟨95, 25, 50, "CACTUS_SMALL"⟩],
    score := 0,
    speed := 300,
    nextObstacleTime := 10000,
    gameState := GameState.running }

/-- C9 counterexample: on the same state, `dt = 1/60` and identical draws,
part_001 (post-update collision check) declares game over while part_002
(pre-update collision check) keeps running, and the successor states differ. -/
theorem claim9_steps_differ_cex :
    step001 cexState (1/60) ⟨0, 1000⟩ ≠ step002 cexState (1/60) ⟨0, 1000⟩ ∧
    (step001 cexState (1/60) ⟨0, 1000⟩).gameState = GameState.gameOver ∧
    (step002 cexState (1/60) ⟨0, 1000⟩).gameState = GameState.running :=
  ⟨by decide, by decide, by decide⟩

/-- C9 (amended): the two per-tick step functions agree on any tick where
neither collision check fires — part_001 checking the post-update player and
obstacles, part_002 the pre-update ones; on such ticks they produce the same
successor state and the same (negative) gameOver decision.  In general they
are not equivalent. -/
theorem claim9_steps_agree (s : SimState) (dt : ℚ) (r : Draws)
    (h1 : collides001 s dt r = false) (h2 : collides002 s = false) :
    step001 s dt r = step002 s dt r := by
  unfold step001 step002
  dsimp only
  rw [if_neg (by simp [h1]), h2]
  simp

/-- Witness for C9: a freshly reset state (no obstacles) steps identically
through both components. -/
theorem claim9_witness :
    step001 (resetState 1000) (1/60) ⟨0, 900⟩ =
      step002 (resetState 1000) (1/60) ⟨0, 900⟩ :=
  claim9_steps_agree (resetState 1000) (1/60) ⟨0, 900⟩ (by decide) (by decide)

/-- C10 counterexample: on a game-over tick of part_001 the spawn countdown
has already been decremented before the early return, so the state does not
stay entirely unchanged. -/
theorem claim10_countdown_changes_cex :
    collides001 cexState (1/60) ⟨0, 1000⟩ = true ∧
    (step001 cexState (1/60) ⟨0, 1000⟩).nextObstacleTime ≠
      cexState.nextObstacleTime :=
  ⟨by decide, by decide⟩

/-- C10 (amended): the part_001 tick that detects a collision transitions to
gameOver and returns before the player position/velocity, obstacle list,
score, and speed updates are applied, so those four fields keep their
previous values; the spawn countdown, however, was already updated before
the collision check. -/
theorem claim10_gameover_preserves (s : SimState) (dt : ℚ) (r : Draws)
    (h : collides001 s dt r = true) :
    (step001 s dt r).gameState = GameState.gameOver ∧
    (step001 s dt r).dino = s.dino ∧
    (step001 s dt r).obstacles = s.obstacles ∧
    (step001 s dt r).score = s.score ∧
    (step001 s dt r).speed = s.speed ∧
    (step001 s dt r).nextObstacleTime =
      (spawnStep s.nextObstacleTime dt s.speed r
        (scrollObstacles s.speed dt s.obstacles)).2 := by
  unfold step001
  dsimp only
  rw [if_pos h]
  exact ⟨rfl, rfl, rfl, rfl, rfl, rfl⟩

/-- Witness for C10: on the concrete colliding tick the score is untouched. -/
theorem claim10_witness :
    (step001 cexState (1/60) ⟨0, 1000⟩).score = cexState.score :=
  (claim10_gameover_preserves cexState (1/60) ⟨0, 1000⟩ (by decide)).2.2.2.1
